import Mathlib

/-!
# Verification of the Konnected Homebridge platform core

Shallow embedding of `src/platform.ts` (class `KonnectedHomebridgePlatform`)
and `src/constants.ts` of the `homebridge-konnected` plugin, together with
theorems settling the frozen specification claims.

Conventions of the embedding:
* JavaScript `undefined` is modelled with `Option` (`none` = absent field).
* A runtime zone state may be a number, a boolean or `undefined`
  (`state?: number | boolean` in `RuntimeCacheInterface`); it is modelled by
  the inductive `CachedState`, and the strict (`===`) comparisons of the
  source are mirrored on it.
* JavaScript truthiness on numbers (`0`/`NaN` falsy) and strings (`""` falsy)
  is made explicit at each conditional that relies on it.
* A thrown `TypeError` (member access on `undefined`) is modelled with
  `Except JsError`; code after the throwing point does not run.
* `hap.uuid.generate` is an injective deterministic hash of its seed string;
  it is modelled by `genUUID`, the identity on the seed, which preserves
  exactly the equalities the source depends on.
-/

namespace Konnected

/-! ## Constants (`src/constants.ts`) -/

/-- `ZONE_TYPES` from `constants.ts`. -/
structure ZoneTypesTable where
  sensors : List String
  dht_sensors : List String
  ds18b20_sensors : List String
  actuators : List String

/-- `ZONE_TYPES` value from `constants.ts`. -/
def ZONE_TYPES : ZoneTypesTable :=
  { sensors := ["contact", "motion", "glass", "water", "smoke"]
    dht_sensors := ["humidtemp"]
    ds18b20_sensors := ["temperature"]
    actuators := ["beeper", "siren", "strobe", "switch"] }

/-- `ZONES` from `constants.ts`: the capability lists of Pro panel zones.
JavaScript object lookup with an unknown key yields `undefined`, hence
`Option`. -/
def ZONES : String → Option (List String)
  | "1" => some ["sensor", "beeper", "siren", "switch"]
  | "2" => some ["sensor", "beeper", "siren", "switch"]
  | "3" => some ["sensor", "beeper", "siren", "switch"]
  | "4" => some ["sensor", "beeper", "siren", "switch"]
  | "5" => some ["sensor", "beeper", "siren", "switch"]
  | "6" => some ["sensor", "beeper", "siren", "switch"]
  | "7" => some ["sensor", "beeper", "siren", "switch"]
  | "8" => some ["sensor", "beeper", "siren", "switch"]
  | "9" => some ["sensor"]
  | "10" => some ["sensor"]
  | "11" => some ["sensor"]
  | "12" => some ["sensor"]
  | "alarm1" => some ["beeper", "siren", "switch"]
  | "out1" => some ["beeper", "siren", "switch"]
  | "alarm2_out2" => some ["beeper", "siren", "switch"]
  | _ => none

/-- `ZONES_TO_PINS` from `constants.ts` as a lookup (unknown key ↦ `none`). -/
def ZONES_TO_PINS : String → Option Nat
  | "1" => some 1
  | "2" => some 2
  | "3" => some 5
  | "4" => some 6
  | "5" => some 7
  | "6" => some 9
  | "out" => some 8
  | _ => none

/-- `ZONES_TO_PINS` as an entry list, in declaration order, for the
`Object.entries(ZONES_TO_PINS)` iterations of `platform.ts`. -/
def ZONES_TO_PINS_ENTRIES : List (String × Nat) :=
  [("1", 1), ("2", 2), ("3", 5), ("4", 6), ("5", 7), ("6", 9), ("out", 8)]

/-- `TYPES_TO_ACCESSORIES` from `constants.ts`: zone type ↦
(service kind, display name). Unknown key ↦ `undefined` (`none`). -/
def TYPES_TO_ACCESSORIES : String → Option (String × String)
  | "securitysystem" => some ("SecuritySystem", "Security System")
  | "contact" => some ("ContactSensor", "Contact Sensor")
  | "motion" => some ("MotionSensor", "Motion Sensor")
  | "glass" => some ("ContactSensor", "Glass Break Sensor")
  | "water" => some ("LeakSensor", "Water Sensor")
  | "smoke" => some ("SmokeSensor", "Smoke Sensor")
  | "temperature" => some ("TemperatureSensor", "Temperature Sensor")
  | "humidtemp" => some ("HumiditySensor", "Humidity & Temperature Sensor")
  | "beeper" => some ("Switch", "Beeper")
  | "siren" => some ("Switch", "Siren")
  | "strobe" => some ("Switch", "Strobe Light")
  | "switch" => some ("Switch", "Generic Switch")
  | _ => none

/-! ## Runtime cache data model (`RuntimeCacheInterface`) -/

/-- A cached zone state: `state?: number | boolean` plus JavaScript
`undefined` when never recorded. -/
inductive CachedState where
  | num (n : Int)
  | boolv (b : Bool)
  | undefined
deriving DecidableEq

/-- One record of `accessoriesRuntimeCache` (`RuntimeCacheInterface`). -/
structure RuntimeCacheEntry where
  UUID : String
  displayName : String := ""
  enabled : Option Bool := none
  type : String := ""
  model : String := ""
  serialNumber : String := ""
  invert : Option Bool := none
  audibleBeep : Option Bool := none
  trigger : Option String := none
  triggerableModes : Option (List String) := none
  state : CachedState := .undefined
  humi : Option Int := none
  temp : Option Int := none
deriving DecidableEq

/-- The zone types handled by the switch branch of the listener GET handler
and of `actuatePanelZone` (beeper, siren, strobe, switch). -/
def switchZoneTypes : List String := ["beeper", "siren", "strobe", "switch"]

/-! ## Listener GET state synthesis (`listeningServer`, lines 180–212)

The source iterates `accessoriesRuntimeCache.find(...)` with a callback that
never returns `true`, so the callback body runs for *every* entry whose
serial number matches, and `responsePayload.state` keeps its previous value
whenever no branch of the cascade assigns it.  `getZoneStateUpdate` is that
callback body for one entry, threading the previous value of
`responsePayload.state`. -/

/-- `Number(state)` as used in the non-switch branch of the GET handler
(the branch guards with a typeof-undefined test, so the `undefined`
case is never converted; the source substitutes `0` there). -/
def cachedStateToNumber : CachedState → Int
  | .num n => n
  | .boolv b => if b then 1 else 0
  | .undefined => 0

/-- Body of the GET-handler cache iteration for one matching cache entry
(`platform.ts` lines 183–205): computes the new value of
`responsePayload.state` from the entry and the previous value. -/
def getZoneStateUpdate (a : RuntimeCacheEntry) (prev : Option Int) : Option Int :=
  if switchZoneTypes.contains a.type then
    if a.trigger == some "low" && a.state == .num 0 then
      some 1
    else if a.trigger == some "low" && (a.state == .num 1 || a.state == .undefined) then
      some 0
    else if (a.trigger == some "high" || a.trigger == none)
        && (a.state == .num 0 || a.state == .undefined) then
      some 0
    else if (a.trigger == some "high" || a.trigger == none) && a.state == .num 1 then
      some 1
    else
      prev
  else
    some (if a.state == .undefined then 0 else cachedStateToNumber a.state)

/-- The full GET-handler cache scan (`accessoriesRuntimeCache.find` at line
181): every entry whose `serialNumber` equals the panel id, a dash and the zone runs
the callback body; `responsePayload.state` starts unassigned. -/
def getZoneQueryState (cache : List RuntimeCacheEntry) (serial : String) : Option Int :=
  cache.foldl (fun prev a => if a.serialNumber == serial then getZoneStateUpdate a prev else prev)
    none

/-! ## Switch settings and momentary duration (`actuateAccessory`, lines 1075–1131) -/

/-- A `switchSettings` object of the plugin configuration (also usable as the
`entryDelaySettings` override passed to `actuateAccessory`). -/
structure SwitchSettings where
  trigger : Option String := none
  pulseDuration : Option Int := none
  pulsePause : Option Int := none
  pulseRepeat : Option Int := none
  triggerableModes : Option (List String) := none
deriving DecidableEq

/-- JavaScript truthiness of an optional number: `undefined` and `0` are
falsy, every other number truthy. -/
def truthyNum : Option Int → Bool
  | none => false
  | some n => n != 0

/-- The JavaScript value held by the local `actuatorDuration` of
`actuateAccessory`: it starts `undefined`, and arithmetic on `undefined`
produces `NaN`. -/
inductive JsDuration where
  | undefined
  | nan
  | val (n : Int)
deriving DecidableEq

/-- JavaScript `>` against `0` for `actuatorDuration`: `undefined > 0` and
`NaN > 0` are both `false`. -/
def JsDuration.gtZero : JsDuration → Bool
  | .undefined => false
  | .nan => false
  | .val n => n > 0

/-- `actuatorDuration * pulseRepeat + pulsePause * (pulseRepeat - 1)`
with JavaScript arithmetic (`undefined` in arithmetic gives `NaN`). -/
def JsDuration.pulseTotal (d : JsDuration) (r p : Int) : JsDuration :=
  match d with
  | .val n => .val (n * r + p * (r - 1))
  | _ => .nan

/-- The `actuatorDuration` computed by `actuateAccessory` (lines 1078–1093)
for given switch settings and requested value. -/
def actuatorDurationOf (ss : SwitchSettings) (value : Bool) : JsDuration :=
  if value = true then
    let d0 : JsDuration :=
      if truthyNum ss.pulseDuration then .val (ss.pulseDuration.getD 0) else .undefined
    if truthyNum ss.pulseRepeat && truthyNum ss.pulsePause then
      if ss.pulseRepeat.getD 0 > 0 then
        d0.pulseTotal (ss.pulseRepeat.getD 0) (ss.pulsePause.getD 0)
      else d0
    else d0
  else .undefined

/-- The momentary fields added to the outbound actuator payload by
`actuateAccessory` (lines 1080–1092): `momentary`, `times`, `pause`. -/
def actuatorMomentaryFields (ss : SwitchSettings) (value : Bool) :
    Option Int × Option Int × Option Int :=
  if value = true then
    let momentary := if truthyNum ss.pulseDuration then ss.pulseDuration else none
    if truthyNum ss.pulseRepeat && truthyNum ss.pulsePause then
      (momentary, ss.pulseRepeat, ss.pulsePause)
    else (momentary, none, none)
  else (none, none, none)

/-- The auto-revert condition of `actuatePanelZone` (lines 1108–1113): after
the panel answers, the switch state is scheduled to reset after
`actuatorDuration` exactly when the response status is 200, the accessory is
a switch kind, `actuatorDuration > 0`, and `pulseRepeat !== -1`. -/
def revertScheduled (status : Nat) (accessoryType : String) (dur : JsDuration)
    (ss : SwitchSettings) : Bool :=
  status == 200 && switchZoneTypes.contains accessoryType
    && dur.gtZero && !(ss.pulseRepeat == some (-1))

/-! ## Actuation polarity (`actuateAccessory`, lines 1036–1045) -/

/-- The `actuatorState` computation of `actuateAccessory`: physical level
from trigger polarity and requested value (initial value `0`). -/
def actuatorState (trigger : Option String) (value : Bool) : Nat :=
  if trigger == some "low" && value == false then 1
  else if trigger == some "low" && value == true then 0
  else if (trigger == some "high" || trigger == none) && value == false then 0
  else if (trigger == some "high" || trigger == none) && value == true then 1
  else 0

/-! ## Security system engine
(`processSensorAccessoryActions`, lines 955–1002, and
`controlSecuritySystem`, lines 1151–1192) -/

/-- The platform state the security-system methods read and write: the
security-system accessory state (`securitySystemAccessory.context.device.state`)
and whether `entryTriggerDelayTimerHandle` is currently defined. -/
structure SecurityState where
  armedState : Nat
  timerPending : Bool
deriving DecidableEq

/-- An actuation request issued through `actuateAccessory`: target zone UUID
and requested boolean value. -/
structure Actuation where
  UUID : String
  value : Bool
deriving DecidableEq

/-- `String(securitySystemAccessory?.context.device.state)` membership test in
`accessory.triggerableModes?.includes(...)`: optional chaining makes the whole
condition falsy when `triggerableModes` is `undefined`. -/
def modesIncludeState (modes : Option (List String)) (armedState : Nat) : Bool :=
  match modes with
  | some ms => ms.contains (toString armedState)
  | none => false

/-- The beeper actuations fired in `processSensorAccessoryActions` (both the
entry-delay branch and the audible-beep branch actuate every `beeper` zone of
the runtime cache with value `true`). -/
def beeperOnActuations (cache : List RuntimeCacheEntry) : List Actuation :=
  (cache.filter (fun a => a.type == "beeper")).map (fun a => { UUID := a.UUID, value := true })

/-- Result of one `processSensorAccessoryActions` call: the new platform
state, the actuations issued, and whether an entry-delay timer was started
by this call. -/
structure SensorActionResult where
  state : SecurityState
  actuations : List Actuation
  timerStarted : Bool
deriving DecidableEq

/-- `processSensorAccessoryActions` (lines 955–1002): fires only when the
updated state differs from the default state of the accessory; starts the
entry-delay timer only when the triggerable modes of the zone include the current
armed state *and* `entryTriggerDelayTimerHandle` is `undefined`; otherwise a
contact/motion zone with `audibleBeep` set fires a beep without a timer. -/
def processSensorAccessoryActions (cache : List RuntimeCacheEntry) (st : SecurityState)
    (accessory : RuntimeCacheEntry) (defaultStateValue resultStateValue : Int) :
    SensorActionResult :=
  if defaultStateValue != resultStateValue then
    if modesIncludeState accessory.triggerableModes st.armedState && !st.timerPending then
      { state := { st with timerPending := true }
        actuations := beeperOnActuations cache
        timerStarted := true }
    else
      { state := st
        actuations :=
          if ["contact", "motion"].contains accessory.type && accessory.audibleBeep == some true
          then beeperOnActuations cache else []
        timerStarted := false }
  else
    { state := st, actuations := [], timerStarted := false }

/-- One inbound sensor-state change as fed to `processSensorAccessoryActions`
by `updateSensorAccessoryState`. -/
structure SensorEvent where
  accessory : RuntimeCacheEntry
  defaultStateValue : Int
  resultStateValue : Int

/-- One inbound change applied to the running platform state, accumulating
the number of entry-delay timers started. -/
def sensorEventStep (cache : List RuntimeCacheEntry) (p : SecurityState × Nat)
    (e : SensorEvent) : SecurityState × Nat :=
  let r := processSensorAccessoryActions cache p.1 e.accessory
    e.defaultStateValue e.resultStateValue
  (r.state, p.2 + if r.timerStarted then 1 else 0)

/-- Processing a sequence of sensor-state changes, counting how many
entry-delay timers were started. -/
def processSensorEvents (cache : List RuntimeCacheEntry) (st : SecurityState)
    (events : List SensorEvent) : SecurityState × Nat :=
  events.foldl (sensorEventStep cache) (st, 0)

/-- A sensor event qualifies for the entry-delay path: the value actually
changed from the default and the triggerable modes of the zone include the current
armed state. -/
def SensorEvent.qualifies (e : SensorEvent) (armedState : Nat) : Prop :=
  e.defaultStateValue ≠ e.resultStateValue ∧
    modesIncludeState e.accessory.triggerableModes armedState = true

/-- `controlSecuritySystem` (lines 1151–1192): stores the new value, and
* value 3 (Disarmed): clears the entry-delay timer handle and actuates every
  beeper/siren/strobe zone off;
* value 4 (Triggered): actuates beepers off, sirens and strobes on, leaving
  the timer handle untouched;
* any other value: no actuations, timer handle untouched. -/
def controlSecuritySystem (cache : List RuntimeCacheEntry) (st : SecurityState)
    (value : Nat) : SecurityState × List Actuation :=
  let st := { st with armedState := value }
  if value == 3 then
    ({ st with timerPending := false },
      (cache.filter (fun a => ["beeper", "siren", "strobe"].contains a.type)).map
        (fun a => { UUID := a.UUID, value := false }))
  else if value == 4 then
    (st,
      cache.filterMap (fun a =>
        if a.type == "beeper" then some { UUID := a.UUID, value := false }
        else if ["siren", "strobe"].contains a.type then some { UUID := a.UUID, value := true }
        else none))
  else (st, [])

/-! ## Listener authentication (`listeningServer`, `respond`, lines 125–230) -/

/-- HTTP methods attached to the callback route
(`.put(respond).post(respond).get(respond)`). -/
inductive HttpMethod where
  | put
  | post
  | get
deriving DecidableEq

/-- A request reaching the callback route. -/
structure CallbackRequest where
  authorization : Option String := none
  method : HttpMethod := .post
  paramsId : String := ""
  queryPin : Option Nat := none
  queryZone : Option String := none

/-- What the authorized branch of `respond` goes on to do. -/
inductive RespondAction where
  | updateSensorState
  | answerGetQuery
deriving DecidableEq

/-- The observable outcome of one `respond` invocation. -/
structure RespondResult where
  status : Nat
  success : Bool
  reason : Option String := none
  action : Option RespondAction := none
  discoveryTriggered : Bool := false
  zone : Option String := none
  pin : Option Nat := none
  state : Option Int := none
deriving DecidableEq

/-- The last component of a JavaScript `split(sep)` on character lists: a
left-to-right scan; each (non-overlapping) occurrence of the separator starts
a new component, and the component being built when the input ends is the
result of `.pop()`.  Fuel-driven structural recursion (fuel = input length
suffices, the separator being non-empty). -/
def jsSplitLast (sep : List Char) : Nat → List Char → List Char → List Char
  | 0, acc, _ => acc.reverse
  | _ + 1, acc, [] => acc.reverse
  | fuel + 1, acc, c :: cs =>
    if (c :: cs).take sep.length == sep then
      jsSplitLast sep fuel [] ((c :: cs).drop sep.length)
    else
      jsSplitLast sep fuel (c :: acc) cs

/-- The bearer-token extraction of the source: split the header on the Bearer separator and take the last component. -/
def extractToken (header : String) : String :=
  String.mk
    (jsSplitLast "Bearer ".toList (header.toList.length + 1) [] header.toList)

/-- The `requestPanelZone` resolution of the GET branch (lines 163–178):
starts as `req.query.zone` and is overwritten by the zone matching
`req.query.pin` when a pin was supplied (the `Object.entries(...).find`
callback never returns `true`, so every matching entry runs). -/
def resolveRequestPanelZone (req : CallbackRequest) : Option String :=
  match req.queryPin with
  | some p =>
    ZONES_TO_PINS_ENTRIES.foldl (fun acc zp => if zp.2 == p then some zp.1 else acc)
      req.queryZone
  | none => req.queryZone

/-- JavaScript string interpolation of a possibly-`undefined` value (used in
the serial-number concatenation of the GET handler). -/
def jsShow (s : Option String) : String :=
  match s with
  | some v => v
  | none => "undefined"

/-- The `respond` closure of `listeningServer` (lines 125–230): bearer-token
authentication, then dispatch on the method; missing token and unknown token
each answer 401 without touching any state, and an unknown token triggers a
discovery pass exactly when none is in flight. -/
def respond (listenerAuth : List String) (ssdpDiscovering : Bool)
    (cache : List RuntimeCacheEntry) (req : CallbackRequest) : RespondResult :=
  match req.authorization with
  | none =>
    { status := 401, success := false, reason := some "Authorization failed, token missing" }
  | some header =>
    if listenerAuth.contains (extractToken header) then
      match req.method with
      | .put | .post => { status := 200, success := true, action := some .updateSensorState }
      | .get =>
        let requestPanelZone := resolveRequestPanelZone req
        { status := 200, success := true, action := some .answerGetQuery
          pin := req.queryPin
          zone := if req.queryPin.isSome then none
                  else if req.queryZone.isSome then requestPanelZone else none
          state := getZoneQueryState cache (req.paramsId ++ "-" ++ jsShow requestPanelZone) }
    else
      { status := 401, success := false, reason := some "Authorization failed, token not valid"
        discoveryTriggered := ssdpDiscovering == false }

/-! ## Discovery retry policy (`discoverPanels`, lines 373–392) -/

/-- The outcome of the end-of-pass timeout callback of `discoverPanels`. -/
structure DiscoveryPassEnd where
  attempts : Nat
  retried : Bool
  loggedFound : Bool
  loggedGuidance : Bool
deriving DecidableEq

/-- The `setTimeout` body closing a discovery pass (lines 374–391):
`ssdpDeviceIDs.length` non-zero just logs the found panels; an empty pass
retries while `ssdpDiscoverAttempts < 5`, incrementing the counter; once the
counter reaches 5 the pass stops, resets the counter to 0 and logs
guidance. -/
def discoveryPassEnd (foundPanels : Nat) (ssdpDiscoverAttempts : Nat) : DiscoveryPassEnd :=
  if foundPanels != 0 then
    { attempts := ssdpDiscoverAttempts, retried := false
      loggedFound := true, loggedGuidance := false }
  else if ssdpDiscoverAttempts < 5 then
    { attempts := ssdpDiscoverAttempts + 1, retried := true
      loggedFound := false, loggedGuidance := false }
  else
    { attempts := 0, retried := false
      loggedFound := false, loggedGuidance := true }

/-! ## Zone configuration compiler (`configureZones`, lines 539–739)

`configureZones` walks the configured zones of one panel, building the four
provisioning payload arrays, the runtime-cache records, and warnings.  A
JavaScript `TypeError` (e.g. `ZONES[n].includes` when `ZONES[n]` is
`undefined`) aborts the whole walk; this is modelled with `Except`. -/

/-- A thrown JavaScript error. -/
inductive JsError where
  | typeError (message : String)
deriving DecidableEq

/-- `environmentalSensorSettings` of a zone configuration. -/
structure EnvSettings where
  pollInterval : Option Int := none
deriving DecidableEq

/-- `binarySensorSettings` of a zone configuration. -/
structure BinarySensorSettings where
  invert : Option Bool := none
  audibleBeep : Option Bool := none
  triggerableModes : Option (List String) := none
deriving DecidableEq

/-- One user-authored zone entry of a panel in the plugin configuration.
Per the configuration schema, `zoneNumber` is a string
(`"1"`–`"12"`, `"out"`, `"alarm1"`, `"out1"`, `"alarm2_out2"` in the UI;
hand-edited configurations may hold anything). -/
structure ZoneConfig where
  zoneNumber : String
  zoneType : String
  zoneLocation : Option String := none
  enabled : Option Bool := none
  binarySensorSettings : Option BinarySensorSettings := none
  switchSettings : Option SwitchSettings := none
  environmentalSensorSettings : Option EnvSettings := none
deriving DecidableEq

/-- The `panelZone` object built per zone (`PanelZone` interface of
`configureZones`): the provisioning payload element. -/
structure PanelZone where
  pin : Option Nat := none
  zone : Option String := none
  trigger : Option Nat := none
  poll_interval : Option Int := none
deriving DecidableEq

/-- `Object.keys(panelZone).length` for the emptiness check at line 633. -/
def PanelZone.keyCount (z : PanelZone) : Nat :=
  (if z.pin.isSome then 1 else 0) + (if z.zone.isSome then 1 else 0)
    + (if z.trigger.isSome then 1 else 0) + (if z.poll_interval.isSome then 1 else 0)

/-- The warnings `configureZones` can log, tagged with the zone number
they concern. -/
inductive ZoneWarning where
  | invalidProOutZone (zoneNumber : String)
  | invalidProActuatorZone (zoneNumber : String)
  | invalidV12ActuatorZone (zoneNumber : String)
  | invalidV12Zone (zoneNumber : String)
  | duplicateZone (zoneNumber : String)
deriving DecidableEq

/-- JavaScript `zoneNumber < 6` where `zoneNumber` is a string: the string is
coerced to a number; a non-numeric string becomes `NaN` and every comparison
with `NaN` is `false`. -/
def jsStringLtNat (s : String) (n : Nat) : Bool :=
  match s.toNat? with
  | some m => m < n
  | none => false

/-- The pin/zone assignment of `configureZones` (lines 576–620) for one zone:
produces the partially built `panelZone` and the warnings logged, or the
`TypeError` thrown when a Pro panel actuator zone number is missing from
`ZONES` (member access on `undefined`). -/
def assignPinOrZone (isPro : Bool) (z : ZoneConfig) :
    Except JsError (PanelZone × List ZoneWarning) :=
  if isPro then
    if z.zoneNumber == "out" then
      .ok ({}, [.invalidProOutZone z.zoneNumber])
    else if ZONE_TYPES.actuators.contains z.zoneType then
      match ZONES z.zoneNumber with
      | none => .error (.typeError "cannot read includes of undefined")
      | some capabilities =>
        if capabilities.contains z.zoneType then
          .ok ({ zone := some z.zoneNumber }, [])
        else
          .ok ({}, [.invalidProActuatorZone z.zoneNumber])
    else
      .ok ({ zone := some z.zoneNumber }, [])
  else
    match ZONES_TO_PINS z.zoneNumber with
    | some pin =>
      if ZONE_TYPES.actuators.contains z.zoneType then
        if jsStringLtNat z.zoneNumber 6 || z.zoneNumber == "out" then
          .ok ({ pin := some pin }, [])
        else
          .ok ({}, [.invalidV12ActuatorZone z.zoneNumber])
      else
        .ok ({ pin := some pin }, [])
    | none => .ok ({}, [.invalidV12Zone z.zoneNumber])

/-- The startup-trigger and poll-interval assignments (lines 622–630):
`switchSettings?.trigger` truthy sets `trigger` to 0 for `"low"`, else 1;
`environmentalSensorSettings?.pollInterval` truthy sets `poll_interval`. -/
def applyZoneSettings (z : ZoneConfig) (pz : PanelZone) : PanelZone :=
  let pz :=
    match z.switchSettings.bind (fun s => s.trigger) with
    | some t => if t != "" then { pz with trigger := some (if t == "low" then 0 else 1) } else pz
    | none => pz
  match z.environmentalSensorSettings.bind (fun s => s.pollInterval) with
  | some p => if p != 0 then { pz with poll_interval := some p } else pz
  | none => pz

/-- `hap.uuid.generate`: deterministic injective hash of the seed string,
modelled by the seed itself. -/
def genUUID (seed : String) : String := seed

/-- A platform accessory restored from the Homebridge disk cache, as read by
the state-carryover loop of `configureZones` (lines 689–704). -/
structure CachedAccessory where
  UUID : String
  state : Option CachedState := none
  humi : Option Int := none
  temp : Option Int := none
deriving DecidableEq

/-- The `zoneObject` built per non-duplicate zone (lines 657–704), including
the carryover of previous state from the disk-cache accessories.  Throws when
`TYPES_TO_ACCESSORIES[zoneType]` is `undefined` (member access `[1]` on
`undefined`). -/
def buildZoneObject (isPro : Bool) (panelShortUUID : String)
    (cachedAccessories : List CachedAccessory) (z : ZoneConfig) :
    Except JsError RuntimeCacheEntry := do
  let names ← match TYPES_TO_ACCESSORIES z.zoneType with
    | some pair => Except.ok pair
    | none => Except.error (.typeError "cannot index undefined accessory type")
  let zoneLocation :=
    match z.zoneLocation with
    | some l => if l != "" then l ++ " " else ""
    | none => ""
  let zoneUUID := genUUID (panelShortUUID ++ "-" ++ z.zoneNumber)
  let obj : RuntimeCacheEntry :=
    { UUID := zoneUUID
      displayName := zoneLocation ++ names.2
      enabled := z.enabled
      type := z.zoneType
      model := (if isPro then "Pro" else "V1-V2") ++ " " ++ names.2
      serialNumber := panelShortUUID ++ "-" ++ z.zoneNumber }
  let obj :=
    if z.binarySensorSettings.bind (fun s => s.invert) == some true then
      { obj with invert := z.binarySensorSettings.bind (fun s => s.invert) }
    else obj
  let obj :=
    if z.binarySensorSettings.bind (fun s => s.audibleBeep) == some true then
      { obj with audibleBeep := z.binarySensorSettings.bind (fun s => s.audibleBeep) }
    else obj
  let obj :=
    match z.switchSettings.bind (fun s => s.trigger) with
    | some t => if t != "" then { obj with trigger := some t } else obj
    | none => obj
  let obj :=
    match z.binarySensorSettings.bind (fun s => s.triggerableModes) with
    | some ms => { obj with triggerableModes := some ms }
    | none =>
      match z.switchSettings.bind (fun s => s.triggerableModes) with
      | some ms => { obj with triggerableModes := some ms }
      | none => obj
  let obj := cachedAccessories.foldl
    (fun obj acc =>
      if acc.UUID == zoneUUID then
        let obj := match acc.state with
          | some st => { obj with state := st }
          | none => obj
        let obj := match acc.humi with
          | some h => { obj with humi := some h }
          | none => obj
        match acc.temp with
        | some t => { obj with humi := some t }
        | none => obj
      else obj)
    obj
  return obj

/-- The accumulated outcome of `configureZones`: the four provisioning
payload arrays, the dedupe list (`existingPayloadZones`), the runtime-cache
records pushed, and the warnings logged. -/
structure ZonesResult where
  sensors : List PanelZone := []
  dht_sensors : List PanelZone := []
  ds18b20_sensors : List PanelZone := []
  actuators : List PanelZone := []
  existingPayloadZones : List String := []
  runtimeCache : List RuntimeCacheEntry := []
  warnings : List ZoneWarning := []
deriving DecidableEq

/-- The bucketing step (lines 632–644): a non-empty `panelZone` of an enabled
zone is pushed into the payload array matching its zone type.  This runs for
*every* zone, before the duplicate check. -/
def bucketPanelZone (acc : ZonesResult) (z : ZoneConfig) (pz : PanelZone) : ZonesResult :=
  if pz.keyCount > 0 && z.enabled == some true then
    if ZONE_TYPES.sensors.contains z.zoneType then
      { acc with sensors := acc.sensors ++ [pz] }
    else if ZONE_TYPES.dht_sensors.contains z.zoneType then
      { acc with dht_sensors := acc.dht_sensors ++ [pz] }
    else if ZONE_TYPES.ds18b20_sensors.contains z.zoneType then
      { acc with ds18b20_sensors := acc.ds18b20_sensors ++ [pz] }
    else if ZONE_TYPES.actuators.contains z.zoneType then
      { acc with actuators := acc.actuators ++ [pz] }
    else acc
  else acc

/-- One iteration of the `configPanel.zones.forEach` loop of
`configureZones` (lines 565–720). -/
def configureZoneStep (isPro : Bool) (panelShortUUID : String)
    (cachedAccessories : List CachedAccessory) (acc : ZonesResult) (z : ZoneConfig) :
    Except JsError ZonesResult := do
  let (pz0, ws) ← assignPinOrZone isPro z
  let pz := applyZoneSettings z pz0
  let acc := { acc with warnings := acc.warnings ++ ws }
  let acc := bucketPanelZone acc z pz
  let zoneUUID := genUUID (panelShortUUID ++ "-" ++ z.zoneNumber)
  if acc.existingPayloadZones.contains zoneUUID then
    return { acc with warnings := acc.warnings ++ [.duplicateZone z.zoneNumber] }
  else
    let obj ← buildZoneObject isPro panelShortUUID cachedAccessories z
    let acc := { acc with existingPayloadZones := acc.existingPayloadZones ++ [zoneUUID] }
    if z.enabled == some true then
      return { acc with runtimeCache := acc.runtimeCache ++ [obj] }
    else
      return acc

/-- `configureZones` for one panel: the zone list of the matching config
panel is folded through `configureZoneStep`; a thrown `TypeError` aborts the
remaining zones and the provisioning payload is never produced. -/
def configureZones (isPro : Bool) (panelShortUUID : String)
    (cachedAccessories : List CachedAccessory) (zones : List ZoneConfig) :
    Except JsError ZonesResult :=
  zones.foldlM (configureZoneStep isPro panelShortUUID cachedAccessories) {}

/-! ## Theorems -/

/-- C3: for switch-type zones, actuation computes the physical level from the
trigger polarity: polarity `"low"` sends 0 for `true` and 1 for `false`;
polarity `"high"` or no trigger configured sends 1 for `true` and 0 for
`false`. -/
theorem claim_C3_actuator_polarity :
    actuatorState (some "low") true = 0 ∧ actuatorState (some "low") false = 1 ∧
    actuatorState (some "high") true = 1 ∧ actuatorState (some "high") false = 0 ∧
    actuatorState none true = 1 ∧ actuatorState none false = 0 := by
  decide

/-- C4: an authenticated GET state query for a switch-type zone reports the
actuator-target state: with trigger polarity `"low"`, cached state 0 reports
1 and cached state 1 reports 0; with polarity `"high"` or unset the mapping
is the identity. -/
theorem claim_C4_get_reports_actuator_target (a : RuntimeCacheEntry)
    (hty : a.type ∈ switchZoneTypes) :
    (a.trigger = some "low" → a.state = .num 0 →
      getZoneQueryState [a] a.serialNumber = some 1) ∧
    (a.trigger = some "low" → a.state = .num 1 →
      getZoneQueryState [a] a.serialNumber = some 0) ∧
    ((a.trigger = some "high" ∨ a.trigger = none) → a.state = .num 0 →
      getZoneQueryState [a] a.serialNumber = some 0) ∧
    ((a.trigger = some "high" ∨ a.trigger = none) → a.state = .num 1 →
      getZoneQueryState [a] a.serialNumber = some 1) := by
  refine ⟨fun h1 h2 => ?_, fun h1 h2 => ?_, fun h1 h2 => ?_, fun h1 h2 => ?_⟩ <;>
    [skip; skip; rcases h1 with h1 | h1; rcases h1 with h1 | h1] <;>
    simp [getZoneQueryState, getZoneStateUpdate, hty, h1, h2]

/-- C4 witness: a low-polarity siren with cached state 0 answers state 1. -/
theorem claim_C4_witness :
    getZoneQueryState
      [{ UUID := "u", type := "siren", serialNumber := "panel-1",
         trigger := some "low", state := .num 0 }] "panel-1" = some 1 :=
  (claim_C4_get_reports_actuator_target
    { UUID := "u", type := "siren", serialNumber := "panel-1",
      trigger := some "low", state := .num 0 } (by decide)).1 rfl rfl

/-- C10: a switch-type zone with an undefined cached state is reported as
state 0 by the GET query under every trigger polarity (`"low"`, `"high"` or
unset): `undefined` is grouped with cached state 1 under `"low"` and with
cached state 0 under `"high"`/unset, both reported 0. -/
theorem claim_C10_get_undefined_state (a : RuntimeCacheEntry)
    (hty : a.type ∈ switchZoneTypes) (hst : a.state = .undefined)
    (htr : a.trigger = some "low" ∨ a.trigger = some "high" ∨ a.trigger = none) :
    getZoneQueryState [a] a.serialNumber = some 0 := by
  rcases htr with h | h | h <;> simp [getZoneQueryState, getZoneStateUpdate, hty, hst, h]

/-- C10 witness: an uninitialized low-polarity strobe answers state 0, not
its armed-high idle level 1. -/
theorem claim_C10_witness :
    getZoneQueryState
      [{ UUID := "u", type := "strobe", serialNumber := "panel-2",
         trigger := some "low", state := .undefined }] "panel-2" = some 0 :=
  claim_C10_get_undefined_state
    { UUID := "u", type := "strobe", serialNumber := "panel-2",
      trigger := some "low", state := .undefined }
    (by decide) rfl (Or.inl rfl)

/-- C5: for an actuation with value `true` and switch settings giving
`pulseDuration` d, `pulseRepeat` r and `pulsePause` p (all applied, i.e.
truthy): when r > 0 the computed total duration is d·r + p·(r − 1) and a
successful send (status 200) of a switch-kind zone schedules the auto-revert
to off after that duration; with r = −1 no auto-revert is ever scheduled. -/
theorem claim_C5_momentary_duration (d r p : Int) (hd : 0 < d) (hp : 0 < p) :
    (0 < r →
      actuatorDurationOf
          { pulseDuration := some d, pulseRepeat := some r, pulsePause := some p } true
        = .val (d * r + p * (r - 1)) ∧
      ∀ ty, ty ∈ switchZoneTypes →
        revertScheduled 200 ty
          (actuatorDurationOf
            { pulseDuration := some d, pulseRepeat := some r, pulsePause := some p } true)
          { pulseDuration := some d, pulseRepeat := some r, pulsePause := some p } = true) ∧
    (∀ status ty dur,
      revertScheduled status ty dur
        { pulseDuration := some d, pulseRepeat := some (-1), pulsePause := some p } = false) := by
  constructor
  · intro hr
    have hdur : actuatorDurationOf
        { pulseDuration := some d, pulseRepeat := some r, pulsePause := some p } true
        = .val (d * r + p * (r - 1)) := by
      simp [actuatorDurationOf, truthyNum, JsDuration.pulseTotal, hd.ne.symm, hp.ne.symm,
        hr.ne.symm, hr]
    refine ⟨hdur, fun ty hty => ?_⟩
    have hpos : 0 < d * r + p * (r - 1) := by
      have h1 : 0 < d * r := mul_pos hd hr
      have h2 : 0 ≤ p * (r - 1) := mul_nonneg hp.le (by omega)
      omega
    have hne : r ≠ -1 := by omega
    simp [revertScheduled, hdur, JsDuration.gtZero, hty, hpos, hne]
  · intro status ty dur
    simp [revertScheduled]

/-- C5 witness: pulseDuration 1000, pulseRepeat 3, pulsePause 500 gives a
total duration of 4000 ms with the auto-revert scheduled, and repeat −1 never
schedules one. -/
theorem claim_C5_witness :
    (actuatorDurationOf
        { pulseDuration := some 1000, pulseRepeat := some 3, pulsePause := some 500 } true
      = .val 4000 ∧
     revertScheduled 200 "switch"
        (actuatorDurationOf
          { pulseDuration := some 1000, pulseRepeat := some 3, pulsePause := some 500 } true)
        { pulseDuration := some 1000, pulseRepeat := some 3, pulsePause := some 500 } = true) ∧
    revertScheduled 200 "switch" (.val 1000)
      { pulseDuration := some 1000, pulseRepeat := some (-1), pulsePause := some 500 } = false := by
  have h := claim_C5_momentary_duration 1000 3 500 (by decide) (by decide)
  have h1 := h.1 (by decide)
  exact ⟨⟨by rw [h1.1]; decide, h1.2 "switch" (by decide)⟩, h.2 200 "switch" (.val 1000)⟩

/-- C7: a callback request without an Authorization header gets 401 with the
token-missing reason and no state change; a request whose bearer token is not
among the issued tokens gets 401 with the token-not-valid reason and triggers
a discovery pass exactly when none is in flight. -/
theorem claim_C7_callback_auth (listenerAuth : List String) (ssdpDiscovering : Bool)
    (cache : List RuntimeCacheEntry) (req : CallbackRequest) :
    (req.authorization = none →
      respond listenerAuth ssdpDiscovering cache req =
        { status := 401, success := false,
          reason := some "Authorization failed, token missing" }) ∧
    (∀ header, req.authorization = some header →
      extractToken header ∉ listenerAuth →
      (respond listenerAuth ssdpDiscovering cache req).status = 401 ∧
      (respond listenerAuth ssdpDiscovering cache req).reason =
        some "Authorization failed, token not valid" ∧
      (respond listenerAuth ssdpDiscovering cache req).action = none ∧
      ((respond listenerAuth ssdpDiscovering cache req).discoveryTriggered = true ↔
        ssdpDiscovering = false)) := by
  constructor
  · intro h
    simp [respond, h]
  · intro header h hcontains
    simp [respond, h, hcontains]

/-- C7 witness: a request with no header is refused as token-missing, and a
request with an unknown token is refused as token-not-valid and triggers
discovery when none is in flight. -/
theorem claim_C7_witness :
    (respond ["tok"] false [] { authorization := none } =
      { status := 401, success := false,
        reason := some "Authorization failed, token missing" }) ∧
    (respond ["tok"] false [] { authorization := some "Bearer bad" }).status = 401 ∧
    (respond ["tok"] false [] { authorization := some "Bearer bad" }).discoveryTriggered = true :=
  ⟨(claim_C7_callback_auth ["tok"] false [] { authorization := none }).1 rfl,
   ((claim_C7_callback_auth ["tok"] false [] { authorization := some "Bearer bad" }).2
      "Bearer bad" rfl (by decide)).1,
   (((claim_C7_callback_auth ["tok"] false [] { authorization := some "Bearer bad" }).2
      "Bearer bad" rfl (by decide)).2.2.2).mpr rfl⟩

/-- C8 counterexample: the discovery attempt counter is *not* reset when a
pass finds panels — a pass that finds a panel with the counter at 3 leaves
the counter at 3, contradicting the claim that it is reset once any panel is
found. -/
theorem claim_C8_counterexample :
    (discoveryPassEnd 1 3).loggedFound = true ∧ (discoveryPassEnd 1 3).attempts = 3 ∧
    ¬(discoveryPassEnd 1 3).attempts = 0 := by
  decide

/-- C8 (amended): an empty discovery pass is retried while the attempt
counter is below 5, incrementing it; once the counter reaches 5 the engine
stops, logs guidance and resets the counter to 0; a pass that finds panels
leaves the counter unchanged (it is not reset on success). -/
theorem claim_C8_discovery_retry (foundPanels attempts : Nat) :
    (foundPanels ≠ 0 →
      discoveryPassEnd foundPanels attempts =
        { attempts := attempts, retried := false, loggedFound := true,
          loggedGuidance := false }) ∧
    (foundPanels = 0 → attempts < 5 →
      discoveryPassEnd foundPanels attempts =
        { attempts := attempts + 1, retried := true, loggedFound := false,
          loggedGuidance := false }) ∧
    (foundPanels = 0 → 5 ≤ attempts →
      discoveryPassEnd foundPanels attempts =
        { attempts := 0, retried := false, loggedFound := false,
          loggedGuidance := true }) := by
  refine ⟨fun h => ?_, fun h h5 => ?_, fun h h5 => ?_⟩ <;>
    simp [discoveryPassEnd, h] <;> omega

/-- C8 witness: with the counter at 5 an empty pass stops with guidance and
a reset counter; below 5 an empty pass retries. -/
theorem claim_C8_witness :
    discoveryPassEnd 0 5 =
      { attempts := 0, retried := false, loggedFound := false, loggedGuidance := true } ∧
    discoveryPassEnd 0 0 =
      { attempts := 1, retried := true, loggedFound := false, loggedGuidance := false } :=
  ⟨(claim_C8_discovery_retry 0 5).2.2 rfl (by decide),
   (claim_C8_discovery_retry 0 0).2.1 rfl (by decide)⟩

/-- Helper: with the entry-delay timer handle already set, one
`processSensorAccessoryActions` call leaves the platform state unchanged and
starts no timer. -/
theorem sensorActions_pending_inert (cache : List RuntimeCacheEntry)
    (st : SecurityState) (h : st.timerPending = true) (accessory : RuntimeCacheEntry)
    (d r : Int) :
    (processSensorAccessoryActions cache st accessory d r).state = st ∧
    (processSensorAccessoryActions cache st accessory d r).timerStarted = false := by
  unfold processSensorAccessoryActions
  split_ifs with h1 h2
  · rw [h] at h2
    simp at h2
  all_goals exact ⟨rfl, rfl⟩

/-- Helper: once the timer handle is set, a whole sequence of further changes
leaves the state unchanged and starts no timer. -/
theorem sensorEvents_fold_pending (cache : List RuntimeCacheEntry)
    (st : SecurityState) (h : st.timerPending = true) :
    ∀ (events : List SensorEvent) (n : Nat),
      events.foldl (sensorEventStep cache) (st, n) = (st, n)
  | [], _ => rfl
  | e :: rest, n => by
    have hstep : sensorEventStep cache (st, n) e = (st, n) := by
      have h1 := sensorActions_pending_inert cache st h e.accessory
        e.defaultStateValue e.resultStateValue
      simp [sensorEventStep, h1.1, h1.2]
    rw [List.foldl_cons, hstep]
    exact sensorEvents_fold_pending cache st h rest n

/-- Helper: a qualifying change with no timer pending starts the timer. -/
theorem sensorActions_qualifying_starts (cache : List RuntimeCacheEntry)
    (st : SecurityState) (h : st.timerPending = false) (e : SensorEvent)
    (hq : e.qualifies st.armedState) :
    processSensorAccessoryActions cache st e.accessory e.defaultStateValue e.resultStateValue
      = { state := { st with timerPending := true }
          actuations := beeperOnActuations cache
          timerStarted := true } := by
  obtain ⟨hne, hmodes⟩ := hq
  simp [processSensorAccessoryActions, hmodes, h, hne]

/-- C1: at most one entry-delay timer is ever pending: a qualifying change
processed while the timer handle is set starts no second timer and leaves the
handle set; from an idle handle, a non-empty run of qualifying changes starts
exactly one timer, however many changes arrive. -/
theorem claim_C1_single_entry_timer (cache : List RuntimeCacheEntry) :
    (∀ (st : SecurityState), st.timerPending = true →
      ∀ (accessory : RuntimeCacheEntry) (d r : Int),
        (processSensorAccessoryActions cache st accessory d r).timerStarted = false ∧
        (processSensorAccessoryActions cache st accessory d r).state.timerPending = true) ∧
    (∀ (st : SecurityState), st.timerPending = false →
      ∀ (events : List SensorEvent), events ≠ [] →
        (∀ e ∈ events, e.qualifies st.armedState) →
        (processSensorEvents cache st events).2 = 1) := by
  constructor
  · intro st h accessory d r
    have h1 := sensorActions_pending_inert cache st h accessory d r
    exact ⟨h1.2, by rw [h1.1]; exact h⟩
  · intro st h events hne hq
    match events with
    | e :: rest =>
      have hstep : sensorEventStep cache (st, 0) e = ({ st with timerPending := true }, 1) := by
        simp [sensorEventStep,
          sensorActions_qualifying_starts cache st h e (hq e (List.mem_cons_self e rest))]
      unfold processSensorEvents
      rw [List.foldl_cons, hstep,
        sensorEvents_fold_pending cache { st with timerPending := true } rfl rest 1]

/-- C1 witness: with armed state 1 and no timer pending, two successive
qualifying changes start exactly one timer. -/
theorem claim_C1_witness :
    (processSensorEvents []
      { armedState := 1, timerPending := false }
      [{ accessory := { UUID := "z", type := "contact", triggerableModes := some ["1"] },
         defaultStateValue := 0, resultStateValue := 1 },
       { accessory := { UUID := "z", type := "contact", triggerableModes := some ["1"] },
         defaultStateValue := 0, resultStateValue := 1 }]).2 = 1 := by
  refine (claim_C1_single_entry_timer []).2
    { armedState := 1, timerPending := false } rfl _ (by simp) ?_
  intro e he
  have he2 : e =
      ({ accessory := { UUID := "z", type := "contact", triggerableModes := some ["1"] },
         defaultStateValue := 0, resultStateValue := 1 } : SensorEvent) := by
    simpa using he
  subst he2
  exact ⟨by decide, by decide⟩

/-- C2: setting the security system to Disarmed (3) clears the entry-delay
timer handle and actuates every beeper/siren/strobe zone off; no other value
changes the timer handle. -/
theorem claim_C2_disarm_cancels (cache : List RuntimeCacheEntry) (st : SecurityState) :
    ((controlSecuritySystem cache st 3).1.timerPending = false ∧
      (controlSecuritySystem cache st 3).1.armedState = 3 ∧
      (∀ a ∈ cache, a.type ∈ (["beeper", "siren", "strobe"] : List String) →
        ({ UUID := a.UUID, value := false } : Actuation) ∈ (controlSecuritySystem cache st 3).2)) ∧
    (∀ value : Nat, value ≠ 3 →
      (controlSecuritySystem cache st value).1.timerPending = st.timerPending) := by
  constructor
  · refine ⟨rfl, rfl, fun a ha hty => ?_⟩
    have : controlSecuritySystem cache st 3
        = ({ armedState := 3, timerPending := false },
          (cache.filter (fun a => ["beeper", "siren", "strobe"].contains a.type)).map
            (fun a => { UUID := a.UUID, value := false })) := rfl
    rw [this]
    exact List.mem_map.mpr ⟨a, List.mem_filter.mpr ⟨ha, by simpa using hty⟩, rfl⟩
  · intro value hv
    unfold controlSecuritySystem
    have h3 : (value == 3) = false := by simpa using hv
    rw [h3]
    simp only [Bool.false_eq_true, if_false]
    split_ifs <;> rfl

/-- C2 witness: disarming with a siren in the cache turns the siren off and
clears a pending timer; value 4 leaves the pending timer handle set. -/
theorem claim_C2_witness :
    ((controlSecuritySystem [{ UUID := "s", type := "siren" }]
        { armedState := 1, timerPending := true } 3).1.timerPending = false ∧
      ({ UUID := "s", value := false } : Actuation) ∈
        (controlSecuritySystem [{ UUID := "s", type := "siren" }]
          { armedState := 1, timerPending := true } 3).2) ∧
    (controlSecuritySystem [{ UUID := "s", type := "siren" }]
        { armedState := 1, timerPending := true } 4).1.timerPending = true :=
  ⟨⟨(claim_C2_disarm_cancels [{ UUID := "s", type := "siren" }]
      { armedState := 1, timerPending := true }).1.1,
    (claim_C2_disarm_cancels [{ UUID := "s", type := "siren" }]
      { armedState := 1, timerPending := true }).1.2.2
      { UUID := "s", type := "siren" } (by decide) (by decide)⟩,
   (claim_C2_disarm_cancels [{ UUID := "s", type := "siren" }]
      { armedState := 1, timerPending := true }).2 4 (by decide)⟩

/-- C6: evaluation at the failing input — a Pro panel with two enabled
`contact` zones both numbered "1".  Both occurrences land in the `sensors`
provisioning array (length 2); the duplicate warning is logged and the
runtime cache keeps only the first occurrence, so the dedupe never reaches
the payload. -/
theorem claim_C6_duplicate_in_payload :
    (configureZones true "aaaaaaaa" []
        [{ zoneNumber := "1", zoneType := "contact", enabled := some true },
         { zoneNumber := "1", zoneType := "contact", enabled := some true }]).map
      (fun r => (r.sensors.length, r.warnings, r.runtimeCache.length))
      = .ok (2, [.duplicateZone "1"], 1) := by
  rfl

/-- C9: evaluation at the failing input — on a Pro panel, an actuator zone
whose number is outside the `ZONES` table throws a `TypeError`
(`ZONES[zoneNumber]` is `undefined`), aborting compilation of the remaining
zones; the V1-V2 path for the same bad zone number instead warns and still
compiles the rest. -/
theorem claim_C9_pro_invalid_zone_throws :
    (configureZones true "aaaaaaaa" []
        [{ zoneNumber := "13", zoneType := "siren", enabled := some true },
         { zoneNumber := "1", zoneType := "contact", enabled := some true }])
      = .error (.typeError "cannot read includes of undefined") ∧
    (configureZones false "bbbbbbbb" []
        [{ zoneNumber := "13", zoneType := "contact", enabled := some true },
         { zoneNumber := "1", zoneType := "contact", enabled := some true }]).map
      (fun r => (r.sensors.length, r.warnings))
      = .ok (1, [.invalidV12Zone "13"]) := by
  exact ⟨rfl, rfl⟩

end Konnected
